import Mathlib

/-!
# appstream-glib: application references and suggestion kinds

A shallow embedding of `libappstream-glib/as-app-ref.c` and of
`libappstream-glib/as-suggest.c` (the kind mapping and the tree operations),
with the properties of their specification.

Modelling conventions

* A `gchar *` is an `Option String`: `none` is the `NULL` pointer, `some s` a
  NUL-terminated string with contents `s` (the terminator is not part of `s`).
* An `AsAppRef` object is the record of its seven string fields.  The functions
  are value-level; the only place where object identity matters is the pointer
  test at the top of `as_app_ref_equal`, whose outcome is an explicit argument.
* `g_return_val_if_fail (AS_IS_APP_REF (x), ...)` guards always pass, since every
  value of type `AsAppRef` is a live object of that type.
* A function that writes through a pointer argument returns the new value of the
  object next to its C result.
* The tree nodes, the YAML accessors, the parse context and the setters of the
  suggestion record live in files that are not among the sources; they are
  modelled from the specification's description of these interfaces.
-/

namespace AppStream

/-! ## GLib helpers -/

/-- The byte `s[0]` of a C string: `none` stands for the terminating NUL, that
is, for the empty string. -/
def first_char (s : String) : Option Char :=
  s.data.head?

/-- Splitting of the characters of a string at every occurrence of the
delimiter; the result always has one token more than there are delimiters. -/
def split_tokens (delim : Char) : List Char → List (List Char)
  | [] => [[]]
  | c :: cs =>
    if c = delim then [] :: split_tokens delim cs
    else
      match split_tokens delim cs with
      | [] => [[c]]
      | tok :: toks => (c :: tok) :: toks

/-- GLib `g_strsplit (string, delimiter, -1)` for a one-character delimiter:
the string is split completely, and, as GLib documents, splitting the empty
string gives the empty vector rather than a vector holding one empty string. -/
def g_strsplit (string : String) (delim : Char) : List String :=
  if string.data = [] then []
  else (split_tokens delim string.data).map String.mk

/-- GLib `g_strv_length`: the number of strings of a vector. -/
def g_strv_length (v : List String) : Nat :=
  v.length

/-- The test `g_strcmp0 (a, b) == 0`: both pointers `NULL`, or both strings
present with the same bytes. -/
def g_strcmp0_is_zero (a b : Option String) : Bool :=
  decide (a = b)

/-- GLib `g_strdup`: a copy of the string, `NULL` for `NULL`. -/
def g_strdup (s : Option String) : Option String :=
  s

/-! ## as-app-ref.c -/

/-- The fields of `struct _AsAppRef`. -/
structure AsAppRef where
  scope : Option String
  system : Option String
  origin : Option String
  kind : Option String
  id : Option String
  arch : Option String
  branch : Option String
deriving DecidableEq, Repr

/-- The object `g_object_new (AS_TYPE_APP_REF, NULL)` returns: every field is
`NULL` (`as_app_ref_init` is empty). -/
def as_app_ref_init : AsAppRef :=
  { scope := none, system := none, origin := none, kind := none,
    id := none, arch := none, branch := none }

/-- The reference read from a string, `none` for the `NULL` result. -/
def as_app_ref_new_from_string (str : Option String) : Option AsAppRef :=
  match str with
  | none => none
  | some s =>
    let split := g_strsplit s '/'
    if g_strv_length split ≠ 7 then none
    else
      match split with
      | [s0, s1, s2, s3, s4, s5, s6] =>
        if first_char s4 = none then none
        else
          some { as_app_ref_init with
                 scope := some s0, system := some s1, origin := some s2,
                 kind := some s3, id := some s4, arch := some s5,
                 branch := some s6 }
      | _ => none

def as_app_ref_get_scope (app_ref : AsAppRef) : Option String := app_ref.scope

def as_app_ref_get_system (app_ref : AsAppRef) : Option String := app_ref.system

def as_app_ref_get_origin (app_ref : AsAppRef) : Option String := app_ref.origin

def as_app_ref_get_kind (app_ref : AsAppRef) : Option String := app_ref.kind

def as_app_ref_get_id (app_ref : AsAppRef) : Option String := app_ref.id

def as_app_ref_get_arch (app_ref : AsAppRef) : Option String := app_ref.arch

def as_app_ref_get_branch (app_ref : AsAppRef) : Option String := app_ref.branch

def as_app_ref_set_scope (app_ref : AsAppRef) (scope : Option String) : AsAppRef :=
  { app_ref with scope := g_strdup scope }

def as_app_ref_set_system (app_ref : AsAppRef) (system : Option String) : AsAppRef :=
  { app_ref with system := g_strdup system }

def as_app_ref_set_origin (app_ref : AsAppRef) (origin : Option String) : AsAppRef :=
  { app_ref with origin := g_strdup origin }

def as_app_ref_set_kind (app_ref : AsAppRef) (kind : Option String) : AsAppRef :=
  { app_ref with kind := g_strdup kind }

def as_app_ref_set_id (app_ref : AsAppRef) (id : Option String) : AsAppRef :=
  { app_ref with id := g_strdup id }

def as_app_ref_set_arch (app_ref : AsAppRef) (arch : Option String) : AsAppRef :=
  { app_ref with arch := g_strdup arch }

def as_app_ref_set_branch (app_ref : AsAppRef) (branch : Option String) : AsAppRef :=
  { app_ref with branch := g_strdup branch }

/-- The part written by the exporter: `*` for a `NULL` or empty part. -/
def as_app_ref_fix_id_part (tmp : Option String) : String :=
  match tmp with
  | none => "*"
  | some t => if first_char t = none then "*" else t

/-- The exported string, `none` for the `NULL` result. -/
def as_app_ref_to_string (app_ref : AsAppRef) : Option String :=
  match app_ref.id with
  | none => none
  | some id =>
    some (as_app_ref_fix_id_part app_ref.scope ++ "/" ++
          as_app_ref_fix_id_part app_ref.system ++ "/" ++
          as_app_ref_fix_id_part app_ref.origin ++ "/" ++
          as_app_ref_fix_id_part app_ref.kind ++ "/" ++
          id ++ "/" ++
          as_app_ref_fix_id_part app_ref.arch ++ "/" ++
          as_app_ref_fix_id_part app_ref.branch)

/-- The comparison of one part of two references. -/
def as_app_ref_compare_id_part (part1 part2 : Option String) : Bool :=
  match part1 with
  | none => true
  | some p1 =>
    if first_char p1 = some '*' then true
    else
      match part2 with
      | none => true
      | some p2 =>
        if first_char p2 = some '*' then true
        else g_strcmp0_is_zero (some p1) (some p2)

/-- The wildcard-aware comparison.  `same_instance` is the outcome of the
pointer test `app_ref1 == app_ref2`; it can only be `true` when both arguments
are one and the same object. -/
def as_app_ref_equal (same_instance : Bool) (app_ref1 app_ref2 : AsAppRef) : Bool :=
  if same_instance then true
  else if !as_app_ref_compare_id_part app_ref1.scope app_ref2.scope then false
  else if !as_app_ref_compare_id_part app_ref1.system app_ref2.system then false
  else if !as_app_ref_compare_id_part app_ref1.origin app_ref2.origin then false
  else if !as_app_ref_compare_id_part app_ref1.kind app_ref2.kind then false
  else if !as_app_ref_compare_id_part app_ref1.id app_ref2.id then false
  else if !as_app_ref_compare_id_part app_ref1.arch app_ref2.arch then false
  else if !as_app_ref_compare_id_part app_ref1.branch app_ref2.branch then false
  else true

/-- The reference with only its id set. -/
def as_app_ref_new (id : Option String) : AsAppRef :=
  { as_app_ref_init with id := g_strdup id }

/-! ## as-suggest.c: the kind mapping -/

/-- Modelled from the spec: the enumeration `AsSuggestKind` is declared in
`as-suggest.h`, which is not among the sources; the specification describes it
as a closed enumeration with the recognised variant `source` and the fallback
`unknown`. -/
inductive AsSuggestKind where
  | AS_SUGGEST_KIND_UNKNOWN
  | AS_SUGGEST_KIND_SOURCE
deriving DecidableEq, Repr

open AsSuggestKind

def as_suggest_kind_from_string (kind : Option String) : AsSuggestKind :=
  if g_strcmp0_is_zero kind (some "source") then AS_SUGGEST_KIND_SOURCE
  else AS_SUGGEST_KIND_UNKNOWN

def as_suggest_kind_to_string (kind : AsSuggestKind) : Option String :=
  if kind = AS_SUGGEST_KIND_SOURCE then some "source"
  else none

/-! ## GLib: g_build_path -/

/-- The running state of `g_build_path`: the text built so far, whether no
element has been written yet, whether the leading separators have been copied,
the element that is returned alone when it consists of separators only, and the
trailing separators of the last element seen. -/
structure BuildPathState where
  result : List Char
  is_first : Bool
  have_leading : Bool
  single_element : Option (List Char)
  last_trailing : Option (List Char)

/-- One round of the loop of `g_build_path` for a one-character separator.
An empty element is ignored.  Of any other element the leading and the trailing
separators are cut off; the leading ones of the first such element are copied
to the result, and what is left, when it is not empty, is appended after a
separator (after none when it is the first text written). -/
def g_build_path_step (sep : Char) (st : BuildPathState) (element : List Char) :
    BuildPathState :=
  if element = [] then st
  else
    let lead := element.takeWhile (fun c => c == sep)
    let start := element.dropWhile (fun c => c == sep)
    let core := start.rdropWhile (fun c => c == sep)
    let trailing := if core = [] then element else start.drop core.length
    let st1 : BuildPathState :=
      if !st.have_leading then
        { st with
          single_element := if core = [] then some element else st.single_element,
          result := st.result ++ lead,
          have_leading := true,
          last_trailing := some trailing }
      else
        { st with single_element := none, last_trailing := some trailing }
    if core = [] then st1
    else
      { st1 with
        result := st1.result ++ (if !st1.is_first then [sep] else []) ++ core,
        is_first := false }

/-- GLib `g_build_path (separator, element, ..., NULL)` for a one-character
separator: the elements are joined with exactly one separator at each joint,
empty elements are ignored, and the leading separators of the first element and
the trailing separators of the last one are kept. -/
def g_build_path (sep : Char) (elements : List String) : String :=
  let st := (elements.map String.data).foldl (g_build_path_step sep)
    { result := [], is_first := true, have_leading := false,
      single_element := none, last_trailing := none }
  match st.single_element with
  | some e => String.mk e
  | none => String.mk (st.result ++ st.last_trailing.getD [])

/-- The arguments of a NULL-terminated variadic call: those before the first
`NULL`. -/
def va_args_until_null : List (Option String) → List String
  | [] => []
  | none :: _ => []
  | some s :: rest => s :: va_args_until_null rest

/-! ## as-suggest.c: the record and the tree operations -/

/-- The private data of an `AsSuggest`: `kind` and `ids` as `AsSuggestPrivate`
declares them.  Modelled from the spec: the functions below also use `url`, the
record's primary string value, and set a height and a width through setters
that are not among the sources; these three are fields of the record here. -/
structure AsSuggest where
  kind : AsSuggestKind
  ids : Option (List String)
  url : Option String
  height : Int
  width : Int
deriving DecidableEq, Repr

/-- The record `g_object_new (AS_TYPE_SUGGEST, NULL)` returns: the private data
is zeroed and `as_suggest_init` is empty. -/
def as_suggest_new : AsSuggest :=
  { kind := AS_SUGGEST_KIND_UNKNOWN, ids := none, url := none, height := 0, width := 0 }

def as_suggest_get_ids (suggest : AsSuggest) : Option (List String) :=
  suggest.ids

def as_suggest_set_kind (suggest : AsSuggest) (kind : AsSuggestKind) : AsSuggest :=
  { suggest with kind := kind }

/-- Modelled from the spec: the setter of the height, not among the sources; it
stores the integer read from the `height` key. -/
def as_suggest_set_height (suggest : AsSuggest) (height : Int) : AsSuggest :=
  { suggest with height := height }

/-- Modelled from the spec: the setter of the width, not among the sources; it
stores the integer read from the `width` key. -/
def as_suggest_set_width (suggest : AsSuggest) (width : Int) : AsSuggest :=
  { suggest with width := width }

/-- Modelled from the spec: the setter of the URL, not among the sources; it
stores a copy of the string it is given. -/
def as_suggest_set_url (suggest : AsSuggest) (url : Option String) : AsSuggest :=
  { suggest with url := g_strdup url }

/-- Modelled from the spec: the tree node of the XML-style collaborator
(`as-node.c`, not among the sources), with a tag name, an optional text payload,
named string attributes and an ordered sequence of child nodes. -/
inductive GNode where
  | mk (name : String) (cdata : Option String) (attrs : List (String × String))
      (children : List GNode)

def GNode.name : GNode → String
  | .mk n _ _ _ => n

def GNode.cdata : GNode → Option String
  | .mk _ d _ _ => d

def GNode.attrs : GNode → List (String × String)
  | .mk _ _ a _ => a

def GNode.children : GNode → List GNode
  | .mk _ _ _ c => c

/-- Modelled from the spec: `get_attribute (node, name)` of the XML-style
collaborator, the value of the named attribute or nothing. -/
def as_node_get_attribute (node : GNode) (key : String) : Option String :=
  (node.attrs.find? (fun kv => kv.1 == key)).map Prod.snd

/-- Modelled from the spec: `get_text (node)` of the XML-style collaborator in
its consuming variant: the text payload, if any, is returned and the payload
slot of the node is cleared. -/
def as_node_take_data (node : GNode) : Option String × GNode :=
  (node.cdata, GNode.mk node.name none node.attrs node.children)

/-- Modelled from the spec: `insert (parent, tag, text, attributes...)` of the
XML-style collaborator.  A new node with the tag, the text payload and the
attributes is appended after the children of the parent; an attribute whose
value is absent is omitted.  The result is the parent after the call and the new
node.  (The flags argument is always `AS_NODE_INSERT_FLAG_NONE` and is left
out.) -/
def as_node_insert (parent : GNode) (name : String) (cdata : Option String)
    (attrs : List (String × Option String)) : GNode × GNode :=
  let n := GNode.mk name cdata
    (attrs.filterMap (fun kv => kv.2.map (fun v => (kv.1, v)))) []
  (GNode.mk parent.name parent.cdata parent.attrs (parent.children ++ [n]), n)

/-- Modelled from the spec: a child of a node of the YAML-style collaborator
(`as-yaml.c`, not among the sources), given by what the three accessors `key`,
`value` and `value_as_int` return for it. -/
structure AsYamlNode where
  key : Option String
  value : Option String
  value_as_int : Int
deriving DecidableEq, Repr

def as_yaml_node_get_key (n : AsYamlNode) : Option String := n.key

def as_yaml_node_get_value (n : AsYamlNode) : Option String := n.value

def as_yaml_node_get_value_as_int (n : AsYamlNode) : Int := n.value_as_int

/-- Modelled from the spec: the parse context, which supplies an optional base
URL. -/
structure AsNodeContext where
  media_base_url : Option String
deriving DecidableEq, Repr

def as_node_context_get_media_base_url (ctx : AsNodeContext) : Option String :=
  ctx.media_base_url

/-- The suggestion written into the tree: the parent after the call and the new
node. -/
def as_suggest_node_insert (suggest : AsSuggest) (parent : GNode) (_ctx : AsNodeContext) :
    GNode × GNode :=
  as_node_insert parent "suggest" suggest.url
    [("type", as_suggest_kind_to_string suggest.kind)]

/-- The suggestion read from a node: the result of the call, the record after
it and the node after it. -/
def as_suggest_node_parse (suggest : AsSuggest) (node : GNode) (_ctx : AsNodeContext) :
    Bool × AsSuggest × GNode :=
  let tmp := as_node_get_attribute node "type"
  let suggest1 :=
    match tmp with
    | none => as_suggest_set_kind suggest AS_SUGGEST_KIND_SOURCE
    | some t => as_suggest_set_kind suggest (as_suggest_kind_from_string (some t))
  let taken := as_node_take_data node
  let suggest2 :=
    match taken.1 with
    | some d => { suggest1 with url := some d }
    | none => suggest1
  (true, suggest2, taken.2)

/-- The body of the loop of `as_suggest_node_parse_dep11` for one child. -/
def as_suggest_node_parse_dep11_child (ctx : AsNodeContext) (im : AsSuggest) (n : AsYamlNode) :
    AsSuggest :=
  let tmp := as_yaml_node_get_key n
  if g_strcmp0_is_zero tmp (some "height") then
    as_suggest_set_height im (as_yaml_node_get_value_as_int n)
  else if g_strcmp0_is_zero tmp (some "width") then
    as_suggest_set_width im (as_yaml_node_get_value_as_int n)
  else if g_strcmp0_is_zero tmp (some "url") then
    match as_node_context_get_media_base_url ctx with
    | some media_base_url =>
      let url := g_build_path '/'
        (va_args_until_null [some media_base_url, as_yaml_node_get_value n])
      as_suggest_set_url im (some url)
    | none => as_suggest_set_url im (as_yaml_node_get_value n)
  else im

/-- The suggestion read from the children of a DEP-11 node, in document order:
the result of the call and the record after it. -/
def as_suggest_node_parse_dep11 (im : AsSuggest) (children : List AsYamlNode)
    (ctx : AsNodeContext) : Bool × AsSuggest :=
  (true, children.foldl (as_suggest_node_parse_dep11_child ctx) im)

/-! ## The specification's wording -/

/-- The specification's export rule for a field other than the id: an absent or
empty field is written as `*`, any other field unchanged. -/
def spec_export_part (field : Option String) : String :=
  match field with
  | none => "*"
  | some t => if t = "" then "*" else t

/-- The specification's rule for one field pair: the pair matches when either
side is absent, is the empty string or is the literal `*`, or when both sides
are present and equal byte for byte. -/
def spec_part_matches (x y : Option String) : Prop :=
  (x = none ∨ x = some "" ∨ x = some "*") ∨ (y = none ∨ y = some "" ∨ y = some "*") ∨
    (x ≠ none ∧ y ≠ none ∧ x = y)

instance (x y : Option String) : Decidable (spec_part_matches x y) := by
  unfold spec_part_matches
  infer_instance

/-- The specification's rule for two keys: all seven field pairs match. -/
def spec_key_matches (a b : AsAppRef) : Prop :=
  spec_part_matches a.scope b.scope ∧ spec_part_matches a.system b.system ∧
  spec_part_matches a.origin b.origin ∧ spec_part_matches a.kind b.kind ∧
  spec_part_matches a.id b.id ∧ spec_part_matches a.arch b.arch ∧
  spec_part_matches a.branch b.branch

instance (a b : AsAppRef) : Decidable (spec_key_matches a b) := by
  unfold spec_key_matches
  infer_instance

/-- A part that the comparison takes for a wildcard: it is absent or its first
character is `*`. -/
def wildcard_part (x : Option String) : Prop :=
  x = none ∨ ∃ t, x = some t ∧ first_char t = some '*'

/-- The rule the comparison applies to one field pair: either side is a wildcard
part, or both sides are present and equal byte for byte. -/
def part_matches (x y : Option String) : Prop :=
  wildcard_part x ∨ wildcard_part y ∨ (x ≠ none ∧ y ≠ none ∧ x = y)

/-- The seven fields of a key, in their order. -/
def key_fields (k : AsAppRef) : List (Option String) :=
  [k.scope, k.system, k.origin, k.kind, k.id, k.arch, k.branch]

/-- A concrete part: it is present and does not begin with `*`. -/
def concrete_part (x : Option String) : Prop :=
  ∃ t, x = some t ∧ first_char t ≠ some '*'

/-- The segment as the exporter writes it back: `*` for an empty segment, the
segment itself otherwise. -/
def spec_star_if_empty (seg : String) : String :=
  if seg = "" then "*" else seg

/-! ## Lemmas on the GLib helpers -/

theorem first_char_eq_none_iff (s : String) : first_char s = none ↔ s = "" := by
  cases s with
  | mk l =>
    cases l with
    | nil => simp [first_char]
    | cons c cs =>
      simp only [first_char, List.head?_cons]
      constructor
      · intro h; cases h
      · intro h; exact absurd (congrArg String.data h) (by simp)

theorem string_data_eq_nil_iff (s : String) : s.data = [] ↔ s = "" := by
  cases s with
  | mk l =>
    constructor
    · intro h; simp only at h; subst h; rfl
    · intro h; exact congrArg String.data h

theorem split_tokens_ne_nil (d : Char) (l : List Char) : split_tokens d l ≠ [] := by
  cases l with
  | nil => simp [split_tokens]
  | cons c cs =>
    by_cases hc : c = d
    · simp [split_tokens, hc]
    · cases h : split_tokens d cs <;> simp [split_tokens, hc, h]

theorem split_tokens_length (d : Char) (l : List Char) :
    (split_tokens d l).length = l.count d + 1 := by
  induction l with
  | nil => simp [split_tokens]
  | cons c cs ih =>
    by_cases hc : c = d
    · subst hc
      simp [split_tokens, ih]
    · have hne : (c == d) = false := by simpa using hc
      cases h : split_tokens d cs with
      | nil => exact absurd h (split_tokens_ne_nil d cs)
      | cons tok toks =>
        rw [h] at ih
        simp only [split_tokens, hc, if_false, h, List.length_cons, List.count_cons, hne]
        simpa using ih

theorem split_tokens_of_not_mem {d : Char} {a : List Char} (h : d ∉ a) :
    split_tokens d a = [a] := by
  induction a with
  | nil => simp [split_tokens]
  | cons c cs ih =>
    have hc : c ≠ d := fun e => h (by simp [e])
    have hcs : d ∉ cs := fun e => h (List.mem_cons_of_mem _ e)
    simp [split_tokens, hc, ih hcs]

theorem split_tokens_append {d : Char} {a : List Char} (h : d ∉ a) (rest : List Char) :
    split_tokens d (a ++ d :: rest) = a :: split_tokens d rest := by
  induction a with
  | nil => simp [split_tokens]
  | cons c cs ih =>
    have hc : c ≠ d := fun e => h (by simp [e])
    have hcs : d ∉ cs := fun e => h (List.mem_cons_of_mem _ e)
    simp [split_tokens, hc, ih hcs]

theorem g_strsplit_length {s : String} (d : Char) (h : s ≠ "") :
    g_strv_length (g_strsplit s d) = s.data.count d + 1 := by
  have h1 : s.data ≠ [] := fun e => h ((string_data_eq_nil_iff s).1 e)
  simp [g_strsplit, g_strv_length, h1, split_tokens_length]

/-- A split into at least two tokens: the first token is the text before the
first delimiter and the other tokens are the split of the text after it. -/
theorem split_tokens_cons_cons (d : Char) (l : List Char) :
    ∀ (t t' : List Char) (ts : List (List Char)), split_tokens d l = t :: t' :: ts →
      ∃ rest, l = t ++ d :: rest ∧ split_tokens d rest = t' :: ts := by
  induction l with
  | nil =>
    intro t t' ts h
    simp [split_tokens] at h
  | cons c cs ih =>
    intro t t' ts h
    by_cases hc : c = d
    · subst hc
      simp only [split_tokens, if_true, List.cons.injEq] at h
      obtain ⟨rfl, h2⟩ := h
      exact ⟨cs, rfl, h2⟩
    · cases hs : split_tokens d cs with
      | nil => exact absurd hs (split_tokens_ne_nil d cs)
      | cons tok toks =>
        simp only [split_tokens, hc, if_false, hs, List.cons.injEq] at h
        obtain ⟨rfl, rfl⟩ := h
        obtain ⟨rest, h1, h2⟩ := ih tok t' ts hs
        exact ⟨rest, by rw [h1]; rfl, h2⟩

/-- A split into one token: the token is the whole text. -/
theorem split_tokens_singleton (d : Char) (l : List Char) :
    ∀ t : List Char, split_tokens d l = [t] → l = t := by
  induction l with
  | nil =>
    intro t h
    simp only [split_tokens, List.cons.injEq, and_true] at h
    exact h
  | cons c cs ih =>
    intro t h
    by_cases hc : c = d
    · subst hc
      simp only [split_tokens, if_true, List.cons.injEq] at h
      exact absurd h.2 (split_tokens_ne_nil c cs)
    · cases hs : split_tokens d cs with
      | nil => exact absurd hs (split_tokens_ne_nil d cs)
      | cons tok toks =>
        simp only [split_tokens, hc, if_false, hs, List.cons.injEq] at h
        obtain ⟨rfl, rfl⟩ := h
        rw [ih tok hs]

/-- A string that splits into seven parts is the join of the parts. -/
theorem g_strsplit_eq_seven (s a b c d e f g : String)
    (h : g_strsplit s '/' = [a, b, c, d, e, f, g]) :
    s = a ++ "/" ++ b ++ "/" ++ c ++ "/" ++ d ++ "/" ++ e ++ "/" ++ f ++ "/" ++ g := by
  unfold g_strsplit at h
  by_cases h0 : s.data = []
  · simp [h0] at h
  · rw [if_neg h0] at h
    have h1 : split_tokens '/' s.data = [a.data, b.data, c.data, d.data, e.data, f.data, g.data] := by
      have := congrArg (List.map String.data) h
      simpa [List.map_map, Function.comp_def] using this
    obtain ⟨r1, e1, h2⟩ := split_tokens_cons_cons _ _ _ _ _ h1
    obtain ⟨r2, e2, h3⟩ := split_tokens_cons_cons _ _ _ _ _ h2
    obtain ⟨r3, e3, h4⟩ := split_tokens_cons_cons _ _ _ _ _ h3
    obtain ⟨r4, e4, h5⟩ := split_tokens_cons_cons _ _ _ _ _ h4
    obtain ⟨r5, e5, h6⟩ := split_tokens_cons_cons _ _ _ _ _ h5
    obtain ⟨r6, e6, h7⟩ := split_tokens_cons_cons _ _ _ _ _ h6
    have e7 := split_tokens_singleton _ _ _ h7
    apply String.ext
    simp only [String.data_append, e1, e2, e3, e4, e5, e6, e7]
    simp

/-! ## Lemmas on the reader -/

/-- The reader succeeds exactly on the strings that split into seven parts with
a non-empty fifth part, and then stores the seven parts. -/
theorem as_app_ref_new_from_string_eq_some_iff (s : String) (k : AsAppRef) :
    as_app_ref_new_from_string (some s) = some k ↔
      ∃ s0 s1 s2 s3 s4 s5 s6, g_strsplit s '/' = [s0, s1, s2, s3, s4, s5, s6] ∧ s4 ≠ "" ∧
        k = ⟨some s0, some s1, some s2, some s3, some s4, some s5, some s6⟩ := by
  simp only [as_app_ref_new_from_string]
  generalize g_strsplit s '/' = l
  rcases l with _ | ⟨a0, _ | ⟨a1, _ | ⟨a2, _ | ⟨a3, _ | ⟨a4, _ | ⟨a5, _ | ⟨a6, _ | ⟨a7, l⟩⟩⟩⟩⟩⟩⟩⟩
  case cons.cons.cons.cons.cons.cons.cons.nil =>
    simp only [g_strv_length, List.length_cons, List.length_nil, first_char_eq_none_iff]
    constructor
    · intro h
      by_cases h4 : a4 = ""
      · simp [h4] at h
      · simp only [h4, if_false] at h
        exact ⟨a0, a1, a2, a3, a4, a5, a6, rfl, h4, by simpa [eq_comm] using h⟩
    · rintro ⟨s0, s1, s2, s3, s4, s5, s6, hl, h4, hk⟩
      simp only [List.cons.injEq, and_true] at hl
      obtain ⟨rfl, rfl, rfl, rfl, rfl, rfl, rfl⟩ := hl
      simp [h4, hk]
  all_goals
    simp only [g_strv_length, List.length_cons, List.length_nil]
    constructor
    · intro h
      simp at h
    · rintro ⟨s0, s1, s2, s3, s4, s5, s6, hl, -, -⟩
      have := congrArg List.length hl
      simp at this

/-- The reader fails exactly when the split does not give seven parts or the
fifth part is empty. -/
theorem as_app_ref_new_from_string_eq_none_iff (s : String) :
    as_app_ref_new_from_string (some s) = none ↔
      (g_strv_length (g_strsplit s '/') ≠ 7 ∨ (g_strsplit s '/')[4]? = some "") := by
  simp only [as_app_ref_new_from_string]
  generalize g_strsplit s '/' = l
  rcases l with _ | ⟨a0, _ | ⟨a1, _ | ⟨a2, _ | ⟨a3, _ | ⟨a4, _ | ⟨a5, _ | ⟨a6, _ | ⟨a7, l⟩⟩⟩⟩⟩⟩⟩⟩
  case cons.cons.cons.cons.cons.cons.cons.nil =>
    by_cases h4 : a4 = "" <;>
      simp [g_strv_length, first_char_eq_none_iff, h4]
  all_goals
    simp [g_strv_length]

/-- Seven parts without the delimiter, joined by it, split back into the
seven parts. -/
theorem g_strsplit_join_seven (a b c d e f g : String)
    (ha : '/' ∉ a.data) (hb : '/' ∉ b.data) (hc : '/' ∉ c.data) (hd : '/' ∉ d.data)
    (he : '/' ∉ e.data) (hf : '/' ∉ f.data) (hg : '/' ∉ g.data) :
    g_strsplit (a ++ "/" ++ b ++ "/" ++ c ++ "/" ++ d ++ "/" ++ e ++ "/" ++ f ++ "/" ++ g) '/'
      = [a, b, c, d, e, f, g] := by
  have hdata : (a ++ "/" ++ b ++ "/" ++ c ++ "/" ++ d ++ "/" ++ e ++ "/" ++ f ++ "/" ++ g).data
      = a.data ++ '/' :: (b.data ++ '/' :: (c.data ++ '/' :: (d.data ++ '/' ::
          (e.data ++ '/' :: (f.data ++ '/' :: g.data))))) := by
    simp [String.data_append]
  have hne : a.data ++ '/' :: (b.data ++ '/' :: (c.data ++ '/' :: (d.data ++ '/' ::
          (e.data ++ '/' :: (f.data ++ '/' :: g.data))))) ≠ [] := by
    simp
  unfold g_strsplit
  rw [hdata, if_neg hne, split_tokens_append ha, split_tokens_append hb, split_tokens_append hc,
    split_tokens_append hd, split_tokens_append he, split_tokens_append hf,
    split_tokens_of_not_mem hg]
  rfl

theorem as_app_ref_fix_id_part_of_ne (t : String) (h : t ≠ "") :
    as_app_ref_fix_id_part (some t) = t := by
  simp [as_app_ref_fix_id_part, first_char_eq_none_iff, h]

/-- The export of a key whose seven fields are present and non-empty. -/
theorem as_app_ref_to_string_concrete (s1 s2 s3 s4 s5 s6 s7 : String)
    (h1 : s1 ≠ "") (h2 : s2 ≠ "") (h3 : s3 ≠ "") (h4 : s4 ≠ "") (h6 : s6 ≠ "") (h7 : s7 ≠ "") :
    as_app_ref_to_string ⟨some s1, some s2, some s3, some s4, some s5, some s6, some s7⟩
      = some (s1 ++ "/" ++ s2 ++ "/" ++ s3 ++ "/" ++ s4 ++ "/" ++ s5 ++ "/" ++ s6 ++ "/" ++ s7) := by
  simp only [as_app_ref_to_string, as_app_ref_fix_id_part_of_ne, h1, h2, h3, h4, h6, h7, ne_eq,
    not_false_eq_true]

theorem count_join_seven (a b c d e f g : String) :
    (a ++ "/" ++ b ++ "/" ++ c ++ "/" ++ d ++ "/" ++ e ++ "/" ++ f ++ "/" ++ g).data.count '/'
      = a.data.count '/' + b.data.count '/' + c.data.count '/' + d.data.count '/'
        + e.data.count '/' + f.data.count '/' + g.data.count '/' + 6 := by
  simp [String.data_append, List.count_append, List.count_cons]
  omega

theorem join_seven_ne_empty (a b c d e f g : String) :
    a ++ "/" ++ b ++ "/" ++ c ++ "/" ++ d ++ "/" ++ e ++ "/" ++ f ++ "/" ++ g ≠ "" := by
  intro h
  have := congrArg (fun t : String => t.data.length) h
  simp [String.data_append] at this

/-! ## Lemmas on the comparison -/

theorem as_app_ref_compare_id_part_iff (x y : Option String) :
    as_app_ref_compare_id_part x y = true ↔ part_matches x y := by
  unfold as_app_ref_compare_id_part part_matches wildcard_part
  cases x with
  | none => simp
  | some p1 =>
    by_cases h1 : first_char p1 = some '*'
    · simp [h1]
    · cases y with
      | none => simp [h1]
      | some p2 =>
        by_cases h2 : first_char p2 = some '*'
        · simp [h1, h2]
        · simp [h1, h2, g_strcmp0_is_zero]

theorem as_app_ref_compare_id_part_self (x : Option String) :
    as_app_ref_compare_id_part x x = true := by
  rw [as_app_ref_compare_id_part_iff]
  cases x with
  | none => exact Or.inl (Or.inl rfl)
  | some t => exact Or.inr (Or.inr ⟨by simp, by simp, rfl⟩)

theorem as_app_ref_compare_id_part_none_left (y : Option String) :
    as_app_ref_compare_id_part none y = true := rfl

theorem as_app_ref_compare_id_part_none_right (x : Option String) :
    as_app_ref_compare_id_part x none = true :=
  (as_app_ref_compare_id_part_iff x none).2 (Or.inr (Or.inl (Or.inl rfl)))

/-- For two distinct objects the comparison is the conjunction of the seven
part comparisons. -/
theorem as_app_ref_equal_false_iff (a b : AsAppRef) :
    as_app_ref_equal false a b = true ↔
      (as_app_ref_compare_id_part a.scope b.scope = true ∧
       as_app_ref_compare_id_part a.system b.system = true ∧
       as_app_ref_compare_id_part a.origin b.origin = true ∧
       as_app_ref_compare_id_part a.kind b.kind = true ∧
       as_app_ref_compare_id_part a.id b.id = true ∧
       as_app_ref_compare_id_part a.arch b.arch = true ∧
       as_app_ref_compare_id_part a.branch b.branch = true) := by
  unfold as_app_ref_equal
  cases as_app_ref_compare_id_part a.scope b.scope <;>
  cases as_app_ref_compare_id_part a.system b.system <;>
  cases as_app_ref_compare_id_part a.origin b.origin <;>
  cases as_app_ref_compare_id_part a.kind b.kind <;>
  cases as_app_ref_compare_id_part a.id b.id <;>
  cases as_app_ref_compare_id_part a.arch b.arch <;>
  cases as_app_ref_compare_id_part a.branch b.branch <;>
  simp

theorem as_app_ref_equal_self (same : Bool) (a : AsAppRef) :
    as_app_ref_equal same a a = true := by
  cases same with
  | true => rfl
  | false =>
    rw [as_app_ref_equal_false_iff]
    simp [as_app_ref_compare_id_part_self]

theorem as_app_ref_compare_id_part_comm (x y : Option String) :
    as_app_ref_compare_id_part x y = as_app_ref_compare_id_part y x := by
  rw [Bool.eq_iff_iff, as_app_ref_compare_id_part_iff, as_app_ref_compare_id_part_iff]
  unfold part_matches
  constructor
  · rintro (h | h | ⟨h1, h2, h3⟩)
    · exact Or.inr (Or.inl h)
    · exact Or.inl h
    · exact Or.inr (Or.inr ⟨h2, h1, h3.symm⟩)
  · rintro (h | h | ⟨h1, h2, h3⟩)
    · exact Or.inr (Or.inl h)
    · exact Or.inl h
    · exact Or.inr (Or.inr ⟨h2, h1, h3.symm⟩)

/-- On concrete parts the comparison is equality. -/
theorem as_app_ref_compare_id_part_concrete (x y : Option String)
    (hx : concrete_part x) (hy : concrete_part y) :
    as_app_ref_compare_id_part x y = true ↔ x = y := by
  obtain ⟨t, rfl, ht⟩ := hx
  obtain ⟨u, rfl, hu⟩ := hy
  simp [as_app_ref_compare_id_part, ht, hu, g_strcmp0_is_zero]

/-- The part the exporter writes compares like the part itself, unless the part
is the empty string. -/
theorem as_app_ref_compare_id_part_fix (f y : Option String) (hf : f ≠ some "") :
    as_app_ref_compare_id_part (some (as_app_ref_fix_id_part f)) y
      = as_app_ref_compare_id_part f y := by
  cases f with
  | none => rfl
  | some t =>
    have ht : t ≠ "" := fun e => hf (by rw [e])
    rw [as_app_ref_fix_id_part_of_ne t ht]

theorem as_app_ref_fix_id_part_no_slash (f : Option String)
    (h : ∀ t, f = some t → '/' ∉ t.data) : '/' ∉ (as_app_ref_fix_id_part f).data := by
  cases f with
  | none => decide
  | some t =>
    by_cases ht : t = ""
    · subst ht
      decide
    · rw [as_app_ref_fix_id_part_of_ne t ht]
      exact h t rfl

theorem as_app_ref_fix_id_part_some (t : String) :
    as_app_ref_fix_id_part (some t) = spec_star_if_empty t := by
  simp [as_app_ref_fix_id_part, spec_star_if_empty, first_char_eq_none_iff]

/-- The comparison only depends on the seven part comparisons. -/
theorem as_app_ref_equal_false_congr (a a' b : AsAppRef)
    (h1 : as_app_ref_compare_id_part a'.scope b.scope = as_app_ref_compare_id_part a.scope b.scope)
    (h2 : as_app_ref_compare_id_part a'.system b.system
      = as_app_ref_compare_id_part a.system b.system)
    (h3 : as_app_ref_compare_id_part a'.origin b.origin
      = as_app_ref_compare_id_part a.origin b.origin)
    (h4 : as_app_ref_compare_id_part a'.kind b.kind = as_app_ref_compare_id_part a.kind b.kind)
    (h5 : as_app_ref_compare_id_part a'.id b.id = as_app_ref_compare_id_part a.id b.id)
    (h6 : as_app_ref_compare_id_part a'.arch b.arch = as_app_ref_compare_id_part a.arch b.arch)
    (h7 : as_app_ref_compare_id_part a'.branch b.branch
      = as_app_ref_compare_id_part a.branch b.branch) :
    as_app_ref_equal false a' b = as_app_ref_equal false a b := by
  simp only [as_app_ref_equal, h1, h2, h3, h4, h5, h6, h7]

/-- A part that is absent or is `*` matches every part. -/
theorem as_app_ref_compare_id_part_wildcard_left (v y : Option String)
    (hv : v = none ∨ v = some "*") :
    as_app_ref_compare_id_part v y = true := by
  rcases hv with rfl | rfl <;> rfl

/-! ## Lemmas on g_build_path -/

/-- The first round of `g_build_path` on an element that does not end in the
separator: the element is copied as it is. -/
theorem g_build_path_step_first (sep : Char) (bs : List Char) (c : Char) (hc : c ≠ sep) :
    g_build_path_step sep ⟨[], true, false, none, none⟩ (bs ++ [c])
      = ⟨bs ++ [c], false, true, none, some []⟩ := by
  have hpc : ¬ ((fun x : Char => x == sep) c = true) := by simpa using hc
  have hne : bs ++ [c] ≠ [] := by simp
  obtain ⟨X, hX⟩ : ∃ X, (bs ++ [c]).dropWhile (fun x => x == sep) = X ++ [c] := by
    rw [List.dropWhile_append]
    split
    · refine ⟨[], ?_⟩
      simp [List.dropWhile_cons, hc]
    · exact ⟨_, rfl⟩
  have hcore : ((bs ++ [c]).dropWhile (fun x => x == sep)).rdropWhile (fun x => x == sep)
      = (bs ++ [c]).dropWhile (fun x => x == sep) := by
    rw [hX]
    exact List.rdropWhile_concat_neg _ _ _ hpc
  have hcne : (bs ++ [c]).dropWhile (fun x => x == sep) ≠ [] := by
    rw [hX]
    simp
  simp only [g_build_path_step, if_neg hne, hcore, if_neg hcne, Bool.not_false, if_true,
    List.nil_append, Bool.not_true, Bool.false_eq_true, if_false, List.append_nil,
    List.drop_length, List.takeWhile_append_dropWhile]

/-- A later round of `g_build_path` on a non-empty element that does not begin
with the separator: a separator and the element without its trailing separators
are appended, and the trailing separators are kept aside. -/
theorem g_build_path_step_next (sep : Char) (st : BuildPathState) (c : Char) (vs : List Char)
    (hc : c ≠ sep) (hl : st.have_leading = true) (hf : st.is_first = false) :
    ∃ core trailing, core ++ trailing = c :: vs ∧
      g_build_path_step sep st (c :: vs)
        = ⟨st.result ++ sep :: core, false, true, none, some trailing⟩ := by
  have hpc : ¬ ((fun x : Char => x == sep) c = true) := by simpa using hc
  have hne : c :: vs ≠ [] := by simp
  have hstart : (c :: vs).dropWhile (fun x => x == sep) = c :: vs := by
    simp [List.dropWhile_cons, hc]
  have hlead : (c :: vs).takeWhile (fun x => x == sep) = [] := by
    simp [List.takeWhile_cons, hc]
  have hcne : (c :: vs).rdropWhile (fun x => x == sep) ≠ [] := by
    intro h
    exact hpc ((List.rdropWhile_eq_nil_iff.1 h) c (List.mem_cons_self _ _))
  have hpre : (c :: vs).rdropWhile (fun x => x == sep)
      = (c :: vs).take ((c :: vs).rdropWhile (fun x => x == sep)).length :=
    List.prefix_iff_eq_take.1 (List.rdropWhile_prefix _ _)
  refine ⟨(c :: vs).rdropWhile (fun x => x == sep),
    (c :: vs).drop ((c :: vs).rdropWhile (fun x => x == sep)).length, ?_, ?_⟩
  · conv_lhs => rw [hpre]
    rw [List.length_take_of_le (by
      exact (List.rdropWhile_prefix (fun x => x == sep) (c :: vs)).length_le)]
    exact List.take_append_drop _ _
  · simp only [g_build_path_step, if_neg hne, hstart, hlead, if_neg hcne, hl, hf, Bool.not_true,
      Bool.false_eq_true, if_false, Bool.not_false, if_true, List.append_assoc,
      List.singleton_append]

/-- Joining a non-empty base that does not end in `/` with a non-empty value
that does not begin with `/` puts exactly one `/` between them. -/
theorem g_build_path_two (b v : String) (hb : b ≠ "") (hbl : b.data.getLast? ≠ some '/')
    (hv : v ≠ "") (hvf : first_char v ≠ some '/') :
    g_build_path '/' [b, v] = b ++ "/" ++ v := by
  have hb1 : b.data ≠ [] := fun e => hb ((string_data_eq_nil_iff b).1 e)
  have hv1 : v.data ≠ [] := fun e => hv ((string_data_eq_nil_iff v).1 e)
  obtain ⟨bs, c, hbc⟩ : ∃ bs c, b.data = bs ++ [c] := by
    rcases List.eq_nil_or_concat b.data with h | ⟨bs, c, h⟩
    · exact absurd h hb1
    · exact ⟨bs, c, by simpa using h⟩
  have hc : c ≠ '/' := by
    intro e
    apply hbl
    rw [hbc, e]
    simp
  obtain ⟨d, vs, hvd⟩ : ∃ d vs, v.data = d :: vs := by
    cases h : v.data with
    | nil => exact absurd h hv1
    | cons d vs => exact ⟨d, vs, rfl⟩
  have hd : d ≠ '/' := by
    intro e
    apply hvf
    simp [first_char, hvd, e]
  obtain ⟨core, trailing, hct, hstep⟩ :=
    g_build_path_step_next '/' ⟨bs ++ [c], false, true, none, some []⟩ d vs hd rfl rfl
  simp only [g_build_path, List.map, List.foldl, hbc, hvd, g_build_path_step_first '/' bs c hc,
    hstep, Option.getD_some]
  apply String.ext
  simp only [String.data_append, hbc, hvd, ← hct]
  simp

/-! ## Lemmas on the DEP-11 reader -/

theorem as_suggest_node_parse_dep11_child_skip (ctx : AsNodeContext) (im : AsSuggest)
    (c : AsYamlNode) (hh : c.key ≠ some "height") (hw : c.key ≠ some "width")
    (hu : c.key ≠ some "url") :
    as_suggest_node_parse_dep11_child ctx im c = im := by
  simp [as_suggest_node_parse_dep11_child, as_yaml_node_get_key, g_strcmp0_is_zero, hh, hw, hu]

theorem as_suggest_node_parse_dep11_child_url_of_ne (ctx : AsNodeContext) (im : AsSuggest)
    (m : AsYamlNode) (hu : m.key ≠ some "url") :
    (as_suggest_node_parse_dep11_child ctx im m).url = im.url := by
  simp only [as_suggest_node_parse_dep11_child, as_yaml_node_get_key, g_strcmp0_is_zero, hu,
    decide_False, Bool.false_eq_true, if_false]
  split
  · rfl
  · split <;> rfl

theorem as_suggest_node_parse_dep11_fold_url (ctx : AsNodeContext) (post : List AsYamlNode)
    (hpost : ∀ m ∈ post, m.key ≠ some "url") (im : AsSuggest) :
    (post.foldl (as_suggest_node_parse_dep11_child ctx) im).url = im.url := by
  induction post generalizing im with
  | nil => rfl
  | cons m rest ih =>
    rw [List.foldl_cons, ih (fun x hx => hpost x (List.mem_cons_of_mem _ hx)),
      as_suggest_node_parse_dep11_child_url_of_ne ctx im m (hpost m (List.mem_cons_self _ _))]

/-- The URL stored for a `url` child with a value. -/
theorem as_suggest_node_parse_dep11_child_url (ctx : AsNodeContext) (im : AsSuggest)
    (n : AsYamlNode) (v : String) (hkey : n.key = some "url") (hval : n.value = some v) :
    (as_suggest_node_parse_dep11_child ctx im n).url =
      match ctx.media_base_url with
      | some b => some (g_build_path '/' [b, v])
      | none => some v := by
  simp only [as_suggest_node_parse_dep11_child, as_yaml_node_get_key, as_yaml_node_get_value,
    as_node_context_get_media_base_url, g_strcmp0_is_zero, hkey, hval]
  cases ctx.media_base_url <;> simp [as_suggest_set_url, g_strdup, va_args_until_null]

/-! ## Lemmas on the XML-style reader and writer -/

/-- The kind stored by the reader, in terms of the `type` attribute alone. -/
theorem as_suggest_node_parse_kind_eq (suggest : AsSuggest) (node : GNode)
    (ctx : AsNodeContext) :
    (as_suggest_node_parse suggest node ctx).2.1.kind =
      match as_node_get_attribute node "type" with
      | none => AS_SUGGEST_KIND_SOURCE
      | some t => as_suggest_kind_from_string (some t) := by
  simp only [as_suggest_node_parse, as_suggest_set_kind]
  cases as_node_get_attribute node "type" <;> cases (as_node_take_data node).1 <;> rfl

/-- The `type` attribute of the node written is the token of the kind. -/
theorem as_suggest_node_insert_type (suggest : AsSuggest) (parent : GNode)
    (ctx : AsNodeContext) :
    as_node_get_attribute (as_suggest_node_insert suggest parent ctx).2 "type"
      = as_suggest_kind_to_string suggest.kind := by
  cases h : suggest.kind <;>
    simp [as_suggest_node_insert, as_node_insert, h, as_suggest_kind_to_string,
      as_node_get_attribute, GNode.attrs]

/-! ## The claims -/

/-- C1: `as_app_ref_new_from_string` returns no key exactly when splitting the
input on `/` does not give exactly 7 segments or the 5th segment is empty, and a
key it does return has all seven fields set, with a non-empty id.  In particular
every string with 0, 1, 6, 8 or 20 segments is rejected, `a/b/c/d//e/f` is
rejected, and every string with exactly six `/` characters and a non-empty 5th
segment is accepted. -/
theorem as_app_ref_new_from_string_fails_iff :
    (∀ s : String, as_app_ref_new_from_string (some s) = none ↔
        (g_strv_length (g_strsplit s '/') ≠ 7 ∨ (g_strsplit s '/')[4]? = some "")) ∧
    (∀ (s : String) (k : AsAppRef), as_app_ref_new_from_string (some s) = some k →
        k.scope ≠ none ∧ k.system ≠ none ∧ k.origin ≠ none ∧ k.kind ≠ none ∧
        k.id ≠ none ∧ k.id ≠ some "" ∧ k.arch ≠ none ∧ k.branch ≠ none) ∧
    (∀ (s : String) (n : Nat), n ∈ [0, 1, 6, 8, 20] →
        g_strv_length (g_strsplit s '/') = n →
        as_app_ref_new_from_string (some s) = none) ∧
    as_app_ref_new_from_string (some "a/b/c/d//e/f") = none ∧
    (∀ s : String, s.data.count '/' = 6 → (g_strsplit s '/')[4]? ≠ some "" →
        (as_app_ref_new_from_string (some s)).isSome = true) := by
  refine ⟨as_app_ref_new_from_string_eq_none_iff, ?_, ?_, by decide, ?_⟩
  · intro s k h
    obtain ⟨s0, s1, s2, s3, s4, s5, s6, -, h4, rfl⟩ :=
      (as_app_ref_new_from_string_eq_some_iff s k).1 h
    simp [h4]
  · intro s n hn hlen
    refine (as_app_ref_new_from_string_eq_none_iff s).2 (Or.inl ?_)
    rw [hlen]
    intro h7
    subst h7
    simp at hn
  · intro s hcount h5
    have hs : s ≠ "" := by
      intro e
      subst e
      simp at hcount
    have hlen : g_strv_length (g_strsplit s '/') = 7 := by
      rw [g_strsplit_length '/' hs, hcount]
    cases hres : as_app_ref_new_from_string (some s) with
    | some k => rfl
    | none =>
      rcases (as_app_ref_new_from_string_eq_none_iff s).1 hres with h | h
      · exact absurd hlen h
      · exact absurd h h5

/-- C1, at concrete inputs: a string of six segments is rejected and the
specification's example string is accepted. -/
theorem as_app_ref_new_from_string_fails_iff_witness :
    as_app_ref_new_from_string (some "a/b/c/d/e/f") = none ∧
    (as_app_ref_new_from_string
      (some "system/package/fedora/app/gimp.desktop/x86_64/3.20")).isSome = true :=
  ⟨as_app_ref_new_from_string_fails_iff.2.2.1 "a/b/c/d/e/f" 6 (by decide) (by decide),
   as_app_ref_new_from_string_fails_iff.2.2.2.2
     "system/package/fedora/app/gimp.desktop/x86_64/3.20" (by decide) (by decide)⟩

/-- C2: for seven strings without `/`, the fifth non-empty, the reader accepts
their join by `/` and the getters of the key return the seven strings verbatim:
a `*`, a blank or an upper-case letter is kept as written and an empty segment
is stored as the empty string, not as an absent field. -/
theorem as_app_ref_new_from_string_getters (s1 s2 s3 s4 s5 s6 s7 : String)
    (h1 : '/' ∉ s1.data) (h2 : '/' ∉ s2.data) (h3 : '/' ∉ s3.data) (h4 : '/' ∉ s4.data)
    (h5 : '/' ∉ s5.data) (h6 : '/' ∉ s6.data) (h7 : '/' ∉ s7.data) (hid : s5 ≠ "") :
    ∃ k, as_app_ref_new_from_string
          (some (s1 ++ "/" ++ s2 ++ "/" ++ s3 ++ "/" ++ s4 ++ "/" ++ s5 ++ "/" ++ s6 ++ "/" ++ s7))
          = some k ∧
      as_app_ref_get_scope k = some s1 ∧ as_app_ref_get_system k = some s2 ∧
      as_app_ref_get_origin k = some s3 ∧ as_app_ref_get_kind k = some s4 ∧
      as_app_ref_get_id k = some s5 ∧ as_app_ref_get_arch k = some s6 ∧
      as_app_ref_get_branch k = some s7 := by
  refine ⟨⟨some s1, some s2, some s3, some s4, some s5, some s6, some s7⟩, ?_,
    rfl, rfl, rfl, rfl, rfl, rfl, rfl⟩
  exact (as_app_ref_new_from_string_eq_some_iff _ _).2
    ⟨s1, s2, s3, s4, s5, s6, s7, g_strsplit_join_seven s1 s2 s3 s4 s5 s6 s7 h1 h2 h3 h4 h5 h6 h7,
      hid, rfl⟩

/-- C2, at a concrete input with a blank, upper-case letters, `*` segments and
empty segments. -/
theorem as_app_ref_new_from_string_getters_witness :
    ∃ k, as_app_ref_new_from_string (some " User/*//App/Gimp.desktop/*/") = some k ∧
      as_app_ref_get_scope k = some " User" ∧ as_app_ref_get_system k = some "*" ∧
      as_app_ref_get_origin k = some "" ∧ as_app_ref_get_kind k = some "App" ∧
      as_app_ref_get_id k = some "Gimp.desktop" ∧ as_app_ref_get_arch k = some "*" ∧
      as_app_ref_get_branch k = some "" :=
  as_app_ref_new_from_string_getters " User" "*" "" "App" "Gimp.desktop" "*" ""
    (by decide) (by decide) (by decide) (by decide) (by decide) (by decide) (by decide)
    (by decide)

/-- C3: for a key whose id is set, `as_app_ref_to_string` returns the seven
fields joined by `/` in the order scope, system, origin, kind, id, arch, branch,
where an absent or empty field other than the id is written as `*` and every
other field, the id included, is written unchanged; a key with only its id set
is exported as `*/*/*/*/<id>/*/*`. -/
theorem as_app_ref_to_string_joined (k : AsAppRef) (id : String) (hid : k.id = some id) :
    as_app_ref_to_string k
      = some (String.intercalate "/"
          [spec_export_part k.scope, spec_export_part k.system, spec_export_part k.origin,
           spec_export_part k.kind, id, spec_export_part k.arch, spec_export_part k.branch]) ∧
    as_app_ref_to_string (as_app_ref_new (some id)) = some ("*/*/*/*/" ++ id ++ "/*/*") := by
  have hfix : ∀ f, as_app_ref_fix_id_part f = spec_export_part f := by
    intro f
    cases f with
    | none => rfl
    | some t => simp [as_app_ref_fix_id_part, spec_export_part, first_char_eq_none_iff]
  constructor
  · simp [as_app_ref_to_string, hid, hfix, String.intercalate, String.intercalate.go]
  · simp [as_app_ref_to_string, as_app_ref_new, as_app_ref_init, g_strdup,
      as_app_ref_fix_id_part, String.ext_iff, String.data_append]

/-- C3, at a key with an absent scope, an empty origin and a `*` kind. -/
theorem as_app_ref_to_string_joined_witness :
    as_app_ref_to_string ⟨none, some "package", some "", some "*", some "gimp.desktop",
        some "x86_64", none⟩ = some "*/package/*/*/gimp.desktop/x86_64/*" ∧
    as_app_ref_to_string (as_app_ref_new (some "gimp.desktop"))
      = some "*/*/*/*/gimp.desktop/*/*" :=
  as_app_ref_to_string_joined ⟨none, some "package", some "", some "*", some "gimp.desktop",
    some "x86_64", none⟩ "gimp.desktop" rfl

/-- C4, on the code: the exporter returns no value for a key whose id is unset,
but for a key whose id was set to the empty string it returns `*/*/*/*//*/*`, a
string that the reader of the same file rejects. -/
theorem as_app_ref_to_string_empty_id :
    as_app_ref_to_string (as_app_ref_new none) = none ∧
    as_app_ref_to_string (as_app_ref_set_id (as_app_ref_new none) (some ""))
      = some "*/*/*/*//*/*" ∧
    as_app_ref_to_string (as_app_ref_new (some "")) = some "*/*/*/*//*/*" ∧
    as_app_ref_new_from_string (some "*/*/*/*//*/*") = none := by
  decide

/-- C5: for a key whose seven fields are all present and non-empty, reading
back the exported string gives exactly the key, field for field, if and only if
no field contains `/`; when a field contains `/` the result is not the key. -/
theorem as_app_ref_round_trip (s1 s2 s3 s4 s5 s6 s7 : String)
    (h1 : s1 ≠ "") (h2 : s2 ≠ "") (h3 : s3 ≠ "") (h4 : s4 ≠ "") (h5 : s5 ≠ "")
    (h6 : s6 ≠ "") (h7 : s7 ≠ "") :
    as_app_ref_new_from_string
        (as_app_ref_to_string ⟨some s1, some s2, some s3, some s4, some s5, some s6, some s7⟩)
      = some ⟨some s1, some s2, some s3, some s4, some s5, some s6, some s7⟩ ↔
    ('/' ∉ s1.data ∧ '/' ∉ s2.data ∧ '/' ∉ s3.data ∧ '/' ∉ s4.data ∧ '/' ∉ s5.data ∧
      '/' ∉ s6.data ∧ '/' ∉ s7.data) := by
  rw [as_app_ref_to_string_concrete s1 s2 s3 s4 s5 s6 s7 h1 h2 h3 h4 h6 h7]
  constructor
  · intro h
    obtain ⟨t0, t1, t2, t3, t4, t5, t6, hsplit, -, -⟩ :=
      (as_app_ref_new_from_string_eq_some_iff _ _).1 h
    have hlen := g_strsplit_length '/' (join_seven_ne_empty s1 s2 s3 s4 s5 s6 s7)
    rw [hsplit, count_join_seven] at hlen
    simp only [g_strv_length, List.length_cons, List.length_nil] at hlen
    simp only [← List.count_eq_zero]
    omega
  · rintro ⟨g1, g2, g3, g4, g5, g6, g7⟩
    exact (as_app_ref_new_from_string_eq_some_iff _ _).2
      ⟨s1, s2, s3, s4, s5, s6, s7,
        g_strsplit_join_seven s1 s2 s3 s4 s5 s6 s7 g1 g2 g3 g4 g5 g6 g7, h5, rfl⟩

/-- C5, at the specification's example key, and at a key whose origin contains
the delimiter. -/
theorem as_app_ref_round_trip_witness :
    as_app_ref_new_from_string
        (as_app_ref_to_string ⟨some "system", some "package", some "fedora", some "app",
          some "gimp.desktop", some "x86_64", some "3.20"⟩)
      = some ⟨some "system", some "package", some "fedora", some "app",
          some "gimp.desktop", some "x86_64", some "3.20"⟩ ∧
    as_app_ref_new_from_string
        (as_app_ref_to_string ⟨some "system", some "package", some "fedora/updates", some "app",
          some "gimp.desktop", some "x86_64", some "3.20"⟩)
      ≠ some ⟨some "system", some "package", some "fedora/updates", some "app",
          some "gimp.desktop", some "x86_64", some "3.20"⟩ :=
  ⟨(as_app_ref_round_trip "system" "package" "fedora" "app" "gimp.desktop" "x86_64" "3.20"
      (by decide) (by decide) (by decide) (by decide) (by decide) (by decide) (by decide)).2
      (by decide),
   fun h => absurd
     ((as_app_ref_round_trip "system" "package" "fedora/updates" "app" "gimp.desktop" "x86_64"
        "3.20" (by decide) (by decide) (by decide) (by decide) (by decide) (by decide)
        (by decide)).1 h)
     (by decide)⟩

/-- C6, as the specification states it, fails on the code in two ways.  A key
with an empty system does not match a key with the system `package`, although
the stated rule takes the empty string for a wildcard; and a key with the system
`*pkg` matches a key with the system `package`, although `*pkg` is not the
literal `*` and the two systems differ. -/
theorem as_app_ref_equal_spec_rule_counterexample :
    (as_app_ref_equal false
        ⟨some "system", some "", some "fedora", some "app", some "gimp.desktop",
          some "x86_64", some "3.20"⟩
        ⟨some "system", some "package", some "fedora", some "app", some "gimp.desktop",
          some "x86_64", some "3.20"⟩ = false ∧
      spec_key_matches
        ⟨some "system", some "", some "fedora", some "app", some "gimp.desktop",
          some "x86_64", some "3.20"⟩
        ⟨some "system", some "package", some "fedora", some "app", some "gimp.desktop",
          some "x86_64", some "3.20"⟩) ∧
    (as_app_ref_equal false
        ⟨some "system", some "*pkg", some "fedora", some "app", some "gimp.desktop",
          some "x86_64", some "3.20"⟩
        ⟨some "system", some "package", some "fedora", some "app", some "gimp.desktop",
          some "x86_64", some "3.20"⟩ = true ∧
      ¬ spec_key_matches
        ⟨some "system", some "*pkg", some "fedora", some "app", some "gimp.desktop",
          some "x86_64", some "3.20"⟩
        ⟨some "system", some "package", some "fedora", some "app", some "gimp.desktop",
          some "x86_64", some "3.20"⟩) := by
  decide

/-- C6, amended: for keys `a` and `b` none of whose fields is the empty string,
`as_app_ref_equal (a, b)` is true exactly when every one of the seven field
pairs matches, where a field pair matches iff either side is absent or begins
with `*`, or both sides are present and equal byte for byte.  (`same` is the
outcome of the pointer test, which can only hold when `a` and `b` are the same
object.) -/
theorem as_app_ref_equal_iff_part_matches (same : Bool) (a b : AsAppRef)
    (hsame : same = true → a = b)
    (_ha : some "" ∉ key_fields a) (_hb : some "" ∉ key_fields b) :
    as_app_ref_equal same a b = true ↔
      (part_matches a.scope b.scope ∧ part_matches a.system b.system ∧
       part_matches a.origin b.origin ∧ part_matches a.kind b.kind ∧
       part_matches a.id b.id ∧ part_matches a.arch b.arch ∧
       part_matches a.branch b.branch) := by
  cases same with
  | true =>
    obtain rfl := hsame rfl
    simp only [← as_app_ref_compare_id_part_iff, as_app_ref_compare_id_part_self, and_self,
      as_app_ref_equal_self]
  | false =>
    simp only [← as_app_ref_compare_id_part_iff]
    exact as_app_ref_equal_false_iff a b

/-- C6, amended, at a pattern with an absent scope and a system beginning with
`*`, compared with a concrete key. -/
theorem as_app_ref_equal_iff_part_matches_witness :
    as_app_ref_equal false
        ⟨none, some "*pkg", some "fedora", some "app", some "gimp.desktop", some "x86_64",
          some "3.20"⟩
        ⟨some "system", some "package", some "fedora", some "app", some "gimp.desktop",
          some "x86_64", some "3.20"⟩ = true :=
  (as_app_ref_equal_iff_part_matches false
      ⟨none, some "*pkg", some "fedora", some "app", some "gimp.desktop", some "x86_64",
        some "3.20"⟩
      ⟨some "system", some "package", some "fedora", some "app", some "gimp.desktop",
        some "x86_64", some "3.20"⟩
      (fun h => Bool.noConfusion h) (by decide) (by decide)).2
    ⟨Or.inl (Or.inl rfl), Or.inl (Or.inr ⟨"*pkg", rfl, rfl⟩),
     Or.inr (Or.inr ⟨by decide, by decide, rfl⟩), Or.inr (Or.inr ⟨by decide, by decide, rfl⟩),
     Or.inr (Or.inr ⟨by decide, by decide, rfl⟩), Or.inr (Or.inr ⟨by decide, by decide, rfl⟩),
     Or.inr (Or.inr ⟨by decide, by decide, rfl⟩)⟩

/-- C7: for a non-empty id and a key `k` with that id, the pattern
`as_app_ref_new (id)` matches `k` in both argument orders, whatever the other
six fields of `k` are. -/
theorem as_app_ref_new_matches_same_id (id : String) (k : AsAppRef)
    (_hne : id ≠ "") (hk : k.id = some id) :
    as_app_ref_equal false (as_app_ref_new (some id)) k = true ∧
    as_app_ref_equal false k (as_app_ref_new (some id)) = true := by
  constructor
  · rw [as_app_ref_equal_false_iff]
    simp [as_app_ref_new, as_app_ref_init, g_strdup, hk, as_app_ref_compare_id_part_none_left,
      as_app_ref_compare_id_part_self]
  · rw [as_app_ref_equal_false_iff]
    simp [as_app_ref_new, as_app_ref_init, g_strdup, hk, as_app_ref_compare_id_part_none_right,
      as_app_ref_compare_id_part_self]

/-- C7, at the specification's example key. -/
theorem as_app_ref_new_matches_same_id_witness :
    as_app_ref_equal false (as_app_ref_new (some "gimp.desktop"))
        ⟨some "system", some "package", some "fedora", some "app", some "gimp.desktop",
          some "x86_64", some "3.20"⟩ = true ∧
    as_app_ref_equal false
        ⟨some "system", some "package", some "fedora", some "app", some "gimp.desktop",
          some "x86_64", some "3.20"⟩
        (as_app_ref_new (some "gimp.desktop")) = true :=
  as_app_ref_new_matches_same_id "gimp.desktop"
    ⟨some "system", some "package", some "fedora", some "app", some "gimp.desktop",
      some "x86_64", some "3.20"⟩ (by decide) rfl

/-- C8: the comparison is reflexive.  For every key `a`, whatever mix of absent,
empty, wildcard and concrete fields it has, `as_app_ref_equal (a, a)` is true
with the same-instance short-circuit taken, and also without it, since each of
the seven part comparisons of a field with itself is true. -/
theorem as_app_ref_equal_reflexive (a : AsAppRef) :
    as_app_ref_equal true a a = true ∧ as_app_ref_equal false a a = true ∧
    (∀ f ∈ key_fields a, as_app_ref_compare_id_part f f = true) :=
  ⟨as_app_ref_equal_self true a, as_app_ref_equal_self false a,
    fun f _ => as_app_ref_compare_id_part_self f⟩

/-- C9: the comparison is not transitive.  With `B` the id-only pattern, `A`
with system `x` and `C` with system `z`, all three sharing one id, `A` matches
`B` and `B` matches `C`, but `A` does not match `C`. -/
theorem as_app_ref_equal_not_transitive :
    ∃ A B C : AsAppRef,
      A.id = B.id ∧ B.id = C.id ∧ B = as_app_ref_new (some "same-id") ∧
      A.system = some "x" ∧ C.system = some "z" ∧
      as_app_ref_equal false A B = true ∧ as_app_ref_equal false B C = true ∧
      as_app_ref_equal false A C = false :=
  ⟨⟨some "*", some "x", some "*", some "*", some "same-id", some "*", some "*"⟩,
   as_app_ref_new (some "same-id"),
   ⟨some "y", some "z", some "*", some "*", some "same-id", some "*", some "*"⟩,
   by decide⟩

/-- C10: the kind mapping is total on decode and partial on encode.
`as_suggest_kind_from_string` returns `source` exactly for the token `source`
and `unknown` for every other token and for an absent token;
`as_suggest_kind_to_string` returns `source` for `source` and no token for
`unknown`; so encoding the decoded `source` gives `source` back, and decoding
the encoding of either kind gives the kind back. -/
theorem as_suggest_kind_mapping :
    (∀ tok : Option String,
        as_suggest_kind_from_string tok = AS_SUGGEST_KIND_SOURCE ↔ tok = some "source") ∧
    (∀ tok : Option String,
        tok ≠ some "source" → as_suggest_kind_from_string tok = AS_SUGGEST_KIND_UNKNOWN) ∧
    as_suggest_kind_from_string none = AS_SUGGEST_KIND_UNKNOWN ∧
    as_suggest_kind_from_string (some "bogus") = AS_SUGGEST_KIND_UNKNOWN ∧
    as_suggest_kind_to_string AS_SUGGEST_KIND_SOURCE = some "source" ∧
    as_suggest_kind_to_string AS_SUGGEST_KIND_UNKNOWN = none ∧
    as_suggest_kind_to_string (as_suggest_kind_from_string (some "source")) = some "source" ∧
    (∀ k : AsSuggestKind, as_suggest_kind_from_string (as_suggest_kind_to_string k) = k) := by
  refine ⟨?_, ?_, by decide, by decide, by decide, by decide, by decide, ?_⟩
  · intro tok
    by_cases h : tok = some "source" <;> simp [as_suggest_kind_from_string, g_strcmp0_is_zero, h]
  · intro tok h
    simp [as_suggest_kind_from_string, g_strcmp0_is_zero, h]
  · intro k
    cases k <;> decide

/-- C11: `as_suggest_node_parse` always reports success and sets the kind from
the `type` attribute of the node: `source` when the attribute is absent,
`source` when it is `source`, `unknown` for any other value, the empty string
included; the kind the record had before has no influence. -/
theorem as_suggest_node_parse_kind (suggest : AsSuggest) (node : GNode) (ctx : AsNodeContext) :
    (as_suggest_node_parse suggest node ctx).1 = true ∧
    (as_node_get_attribute node "type" = none →
      (as_suggest_node_parse suggest node ctx).2.1.kind = AS_SUGGEST_KIND_SOURCE) ∧
    (as_node_get_attribute node "type" = some "source" →
      (as_suggest_node_parse suggest node ctx).2.1.kind = AS_SUGGEST_KIND_SOURCE) ∧
    (∀ t, as_node_get_attribute node "type" = some t → t ≠ "source" →
      (as_suggest_node_parse suggest node ctx).2.1.kind = AS_SUGGEST_KIND_UNKNOWN) ∧
    (∀ other : AsSuggest,
      (as_suggest_node_parse other node ctx).2.1.kind
        = (as_suggest_node_parse suggest node ctx).2.1.kind) := by
  refine ⟨rfl, ?_, ?_, ?_, ?_⟩
  · intro h
    simp only [as_suggest_node_parse, h, as_suggest_set_kind]
    cases (as_node_take_data node).1 <;> rfl
  · intro h
    simp only [as_suggest_node_parse, h, as_suggest_set_kind]
    cases (as_node_take_data node).1 <;> rfl
  · intro t h ht
    have hk : as_suggest_kind_from_string (some t) = AS_SUGGEST_KIND_UNKNOWN := by
      simp [as_suggest_kind_from_string, g_strcmp0_is_zero, ht]
    simp only [as_suggest_node_parse, h, as_suggest_set_kind, hk]
    cases (as_node_take_data node).1 <;> rfl
  · intro other
    simp only [as_suggest_node_parse, as_suggest_set_kind]
    cases as_node_get_attribute node "type" <;> cases (as_node_take_data node).1 <;> rfl

/-- C11, at three nodes: no `type` attribute, `type` equal to `source`, and an
empty `type`, each read into a record whose kind was the opposite one. -/
theorem as_suggest_node_parse_kind_witness :
    (as_suggest_node_parse as_suggest_new (GNode.mk "suggest" none [] []) ⟨none⟩).2.1.kind
      = AS_SUGGEST_KIND_SOURCE ∧
    (as_suggest_node_parse as_suggest_new
        (GNode.mk "suggest" none [("type", "source")] []) ⟨none⟩).2.1.kind
      = AS_SUGGEST_KIND_SOURCE ∧
    (as_suggest_node_parse (as_suggest_set_kind as_suggest_new AS_SUGGEST_KIND_SOURCE)
        (GNode.mk "suggest" none [("type", "")] []) ⟨none⟩).2.1.kind
      = AS_SUGGEST_KIND_UNKNOWN :=
  ⟨(as_suggest_node_parse_kind as_suggest_new (GNode.mk "suggest" none [] []) ⟨none⟩).2.1 rfl,
   (as_suggest_node_parse_kind as_suggest_new
      (GNode.mk "suggest" none [("type", "source")] []) ⟨none⟩).2.2.1 (by decide),
   (as_suggest_node_parse_kind (as_suggest_set_kind as_suggest_new AS_SUGGEST_KIND_SOURCE)
      (GNode.mk "suggest" none [("type", "")] []) ⟨none⟩).2.2.2.1 "" (by decide) (by decide)⟩

/-- C13: the DEP-11 reader ignores an unrecognised key.  For every list of
children and every context, a further child whose key is none of `height`,
`width` and `url`, put at any position, leaves the call successful and the
record it produces, so its height, width and URL, the same. -/
theorem as_suggest_node_parse_dep11_ignores_key (im : AsSuggest) (ctx : AsNodeContext)
    (pre post : List AsYamlNode) (c : AsYamlNode)
    (hh : c.key ≠ some "height") (hw : c.key ≠ some "width") (hu : c.key ≠ some "url") :
    (as_suggest_node_parse_dep11 im (pre ++ c :: post) ctx).1 = true ∧
    (as_suggest_node_parse_dep11 im (pre ++ c :: post) ctx).2.height
      = (as_suggest_node_parse_dep11 im (pre ++ post) ctx).2.height ∧
    (as_suggest_node_parse_dep11 im (pre ++ c :: post) ctx).2.width
      = (as_suggest_node_parse_dep11 im (pre ++ post) ctx).2.width ∧
    (as_suggest_node_parse_dep11 im (pre ++ c :: post) ctx).2.url
      = (as_suggest_node_parse_dep11 im (pre ++ post) ctx).2.url := by
  have h : as_suggest_node_parse_dep11 im (pre ++ c :: post) ctx
      = as_suggest_node_parse_dep11 im (pre ++ post) ctx := by
    simp only [as_suggest_node_parse_dep11, List.foldl_append, List.foldl_cons,
      as_suggest_node_parse_dep11_child_skip ctx _ c hh hw hu]
  rw [h]
  exact ⟨rfl, rfl, rfl, rfl⟩

/-- C13, at a `caption` child put between a `height` and a `url` child. -/
theorem as_suggest_node_parse_dep11_ignores_key_witness :
    (as_suggest_node_parse_dep11 as_suggest_new
        [⟨some "height", some "600", 600⟩, ⟨some "caption", some "Main window", 0⟩,
         ⟨some "url", some "shot1.png", 0⟩] ⟨none⟩).1 = true ∧
    (as_suggest_node_parse_dep11 as_suggest_new
        [⟨some "height", some "600", 600⟩, ⟨some "caption", some "Main window", 0⟩,
         ⟨some "url", some "shot1.png", 0⟩] ⟨none⟩).2.height = 600 ∧
    (as_suggest_node_parse_dep11 as_suggest_new
        [⟨some "height", some "600", 600⟩, ⟨some "caption", some "Main window", 0⟩,
         ⟨some "url", some "shot1.png", 0⟩] ⟨none⟩).2.width = 0 ∧
    (as_suggest_node_parse_dep11 as_suggest_new
        [⟨some "height", some "600", 600⟩, ⟨some "caption", some "Main window", 0⟩,
         ⟨some "url", some "shot1.png", 0⟩] ⟨none⟩).2.url = some "shot1.png" :=
  as_suggest_node_parse_dep11_ignores_key as_suggest_new ⟨none⟩
    [⟨some "height", some "600", 600⟩] [⟨some "url", some "shot1.png", 0⟩]
    ⟨some "caption", some "Main window", 0⟩ (by decide) (by decide) (by decide)

/-- C14: `as_suggest_node_insert` appends exactly one new node after the
children of the parent, which are kept as they are, and returns that node.  The
node is tagged `suggest`, its text payload is the primary string value of the
record, and it carries the attribute `type` with the value `source` when the
kind is `source` and no attribute at all when the kind is `unknown`. -/
theorem as_suggest_node_insert_appends (suggest : AsSuggest) (parent : GNode)
    (ctx : AsNodeContext) :
    (as_suggest_node_insert suggest parent ctx).1.children
      = parent.children ++ [(as_suggest_node_insert suggest parent ctx).2] ∧
    (as_suggest_node_insert suggest parent ctx).1.name = parent.name ∧
    (as_suggest_node_insert suggest parent ctx).1.cdata = parent.cdata ∧
    (as_suggest_node_insert suggest parent ctx).1.attrs = parent.attrs ∧
    (as_suggest_node_insert suggest parent ctx).2.name = "suggest" ∧
    (as_suggest_node_insert suggest parent ctx).2.cdata = suggest.url ∧
    (as_suggest_node_insert suggest parent ctx).2.children = [] ∧
    (suggest.kind = AS_SUGGEST_KIND_SOURCE →
      (as_suggest_node_insert suggest parent ctx).2.attrs = [("type", "source")] ∧
      as_node_get_attribute (as_suggest_node_insert suggest parent ctx).2 "type"
        = some "source") ∧
    (suggest.kind = AS_SUGGEST_KIND_UNKNOWN →
      (as_suggest_node_insert suggest parent ctx).2.attrs = [] ∧
      as_node_get_attribute (as_suggest_node_insert suggest parent ctx).2 "type" = none) := by
  refine ⟨rfl, rfl, rfl, rfl, rfl, rfl, rfl, ?_, ?_⟩
  · intro h
    constructor
    · simp [as_suggest_node_insert, as_node_insert, h, as_suggest_kind_to_string, GNode.attrs]
    · simp [as_suggest_node_insert, as_node_insert, h, as_suggest_kind_to_string,
        as_node_get_attribute, GNode.attrs]
  · intro h
    constructor
    · simp [as_suggest_node_insert, as_node_insert, h, as_suggest_kind_to_string, GNode.attrs]
    · simp [as_suggest_node_insert, as_node_insert, h, as_suggest_kind_to_string,
        as_node_get_attribute, GNode.attrs]

/-- C14, at a record of kind `source` put under a parent with one child. -/
theorem as_suggest_node_insert_appends_witness :
    (as_suggest_node_insert
        ⟨AS_SUGGEST_KIND_SOURCE, none, some "gimp.desktop", 0, 0⟩
        (GNode.mk "suggests" none [] [GNode.mk "id" (some "a.desktop") [] []]) ⟨none⟩).2.attrs
      = [("type", "source")] :=
  ((as_suggest_node_insert_appends ⟨AS_SUGGEST_KIND_SOURCE, none, some "gimp.desktop", 0, 0⟩
      (GNode.mk "suggests" none [] [GNode.mk "id" (some "a.desktop") [] []]) ⟨none⟩).2.2.2.2.2.2.2.1
    rfl).1

/-- C16: `as_suggest_node_parse` replaces the primary string value of the record
by the text payload of the node when the node has one and keeps the value set
before when it has none; the list of ids of the record is unchanged in both
cases. -/
theorem as_suggest_node_parse_url (suggest : AsSuggest) (node : GNode) (ctx : AsNodeContext) :
    (∀ d, node.cdata = some d → (as_suggest_node_parse suggest node ctx).2.1.url = some d) ∧
    (node.cdata = none → (as_suggest_node_parse suggest node ctx).2.1.url = suggest.url) ∧
    (as_suggest_node_parse suggest node ctx).2.1.ids = suggest.ids := by
  refine ⟨?_, ?_, ?_⟩
  · intro d h
    simp only [as_suggest_node_parse, as_node_take_data, h]
  · intro h
    simp only [as_suggest_node_parse, as_node_take_data, h, as_suggest_set_kind]
    cases as_node_get_attribute node "type" <;> rfl
  · simp only [as_suggest_node_parse, as_node_take_data, as_suggest_set_kind]
    cases as_node_get_attribute node "type" <;> cases node.cdata <;> rfl

/-- C16, at a record with a value and two ids, read from a node with a text
payload and from a node without one. -/
theorem as_suggest_node_parse_url_witness :
    (as_suggest_node_parse ⟨AS_SUGGEST_KIND_UNKNOWN, some ["a.desktop", "b.desktop"], some "old", 0, 0⟩
        (GNode.mk "suggest" (some "new") [] []) ⟨none⟩).2.1.url = some "new" ∧
    (as_suggest_node_parse ⟨AS_SUGGEST_KIND_UNKNOWN, some ["a.desktop", "b.desktop"], some "old", 0, 0⟩
        (GNode.mk "suggest" none [] []) ⟨none⟩).2.1.url = some "old" :=
  ⟨(as_suggest_node_parse_url ⟨AS_SUGGEST_KIND_UNKNOWN, some ["a.desktop", "b.desktop"], some "old", 0, 0⟩
      (GNode.mk "suggest" (some "new") [] []) ⟨none⟩).1 "new" rfl,
   (as_suggest_node_parse_url ⟨AS_SUGGEST_KIND_UNKNOWN, some ["a.desktop", "b.desktop"], some "old", 0, 0⟩
      (GNode.mk "suggest" none [] []) ⟨none⟩).2.1 rfl⟩

/-- C20: writing a record with `as_suggest_node_insert` and reading the node
written with `as_suggest_node_parse` into a fresh record gives the kind `source`
for every record, so the kind `unknown` is not preserved: its `type` attribute
is omitted, and an absent attribute is read as `source`. -/
theorem as_suggest_insert_parse_kind (r : AsSuggest) (parent : GNode) (ctx : AsNodeContext) :
    (as_suggest_node_parse as_suggest_new (as_suggest_node_insert r parent ctx).2 ctx).2.1.kind
      = AS_SUGGEST_KIND_SOURCE ∧
    (r.kind = AS_SUGGEST_KIND_UNKNOWN →
      (as_suggest_node_parse as_suggest_new (as_suggest_node_insert r parent ctx).2 ctx).2.1.kind
        ≠ r.kind) := by
  have h : (as_suggest_node_parse as_suggest_new
      (as_suggest_node_insert r parent ctx).2 ctx).2.1.kind = AS_SUGGEST_KIND_SOURCE := by
    rw [as_suggest_node_parse_kind_eq, as_suggest_node_insert_type]
    cases r.kind <;> decide
  refine ⟨h, ?_⟩
  intro hk
  rw [h, hk]
  decide

/-- C20, at a record of kind `unknown`: the kind read back is `source`. -/
theorem as_suggest_insert_parse_kind_witness :
    (as_suggest_node_parse as_suggest_new
        (as_suggest_node_insert ⟨AS_SUGGEST_KIND_UNKNOWN, none, some "gimp.desktop", 0, 0⟩
          (GNode.mk "suggests" none [] []) ⟨none⟩).2 ⟨none⟩).2.1.kind
      ≠ AS_SUGGEST_KIND_UNKNOWN :=
  (as_suggest_insert_parse_kind ⟨AS_SUGGEST_KIND_UNKNOWN, none, some "gimp.desktop", 0, 0⟩
    (GNode.mk "suggests" none [] []) ⟨none⟩).2 rfl

/-- C12, as the specification states it, fails for the empty value: the base
URL `https://example.com/media` and the value of the `url` child meet the stated
conditions, but the URL stored is the base URL itself, without the `/` the
claim appends, since `g_build_path` ignores an empty element. -/
theorem as_suggest_node_parse_dep11_url_counterexample :
    ("https://example.com/media" ≠ "" ∧
      ("https://example.com/media" : String).data.getLast? ≠ some '/' ∧
      first_char "" ≠ some '/') ∧
    (as_suggest_node_parse_dep11 as_suggest_new [⟨some "url", some "", 0⟩]
        ⟨some "https://example.com/media"⟩).2.url = some "https://example.com/media" ∧
    (as_suggest_node_parse_dep11 as_suggest_new [⟨some "url", some "", 0⟩]
        ⟨some "https://example.com/media"⟩).2.url
      ≠ some ("https://example.com/media" ++ "/" ++ "") := by
  decide

/-- C12, amended: for a node whose last `url` child has the value `v`, when the
context supplies a non-empty base URL `b` that does not end in `/` and `v` is
non-empty and does not begin with `/`, the URL stored is `b ++ "/" ++ v`; when
the context supplies no base URL, the URL stored is exactly `v`. -/
theorem as_suggest_node_parse_dep11_url (im : AsSuggest) (pre post : List AsYamlNode)
    (n : AsYamlNode) (v : String) (hkey : n.key = some "url") (hval : n.value = some v)
    (hpost : ∀ m ∈ post, m.key ≠ some "url") :
    (∀ b : String, b ≠ "" → b.data.getLast? ≠ some '/' → v ≠ "" → first_char v ≠ some '/' →
      (as_suggest_node_parse_dep11 im (pre ++ n :: post) ⟨some b⟩).2.url
        = some (b ++ "/" ++ v)) ∧
    (as_suggest_node_parse_dep11 im (pre ++ n :: post) ⟨none⟩).2.url = some v := by
  constructor
  · intro b hb hbl hv hvf
    simp only [as_suggest_node_parse_dep11, List.foldl_append, List.foldl_cons]
    rw [as_suggest_node_parse_dep11_fold_url _ post hpost,
      as_suggest_node_parse_dep11_child_url _ _ n v hkey hval]
    simp only [g_build_path_two b v hb hbl hv hvf]
  · simp only [as_suggest_node_parse_dep11, List.foldl_append, List.foldl_cons]
    rw [as_suggest_node_parse_dep11_fold_url _ post hpost,
      as_suggest_node_parse_dep11_child_url _ _ n v hkey hval]

/-- C12, amended, at the specification's example: the base URL
`https://example.com/media` and the value `shot1.png`. -/
theorem as_suggest_node_parse_dep11_url_witness :
    (as_suggest_node_parse_dep11 as_suggest_new [⟨some "url", some "shot1.png", 0⟩]
        ⟨some "https://example.com/media"⟩).2.url
      = some "https://example.com/media/shot1.png" ∧
    (as_suggest_node_parse_dep11 as_suggest_new [⟨some "url", some "shot1.png", 0⟩]
        ⟨none⟩).2.url = some "shot1.png" :=
  ⟨(as_suggest_node_parse_dep11_url as_suggest_new [] [] ⟨some "url", some "shot1.png", 0⟩
      "shot1.png" rfl rfl (by simp)).1 "https://example.com/media" (by decide) (by decide)
      (by decide) (by decide),
   (as_suggest_node_parse_dep11_url as_suggest_new [] [] ⟨some "url", some "shot1.png", 0⟩
      "shot1.png" rfl rfl (by simp)).2⟩

/-- C17: `as_app_ref_equal` is symmetric, for two distinct objects as for one
and the same object, although the comparison of one part looks at its first
argument before its second. -/
theorem as_app_ref_equal_symmetric (same : Bool) (a b : AsAppRef) :
    as_app_ref_equal same a b = as_app_ref_equal same b a := by
  cases same with
  | true => rfl
  | false =>
    unfold as_app_ref_equal
    rw [as_app_ref_compare_id_part_comm a.scope b.scope,
      as_app_ref_compare_id_part_comm a.system b.system,
      as_app_ref_compare_id_part_comm a.origin b.origin,
      as_app_ref_compare_id_part_comm a.kind b.kind,
      as_app_ref_compare_id_part_comm a.id b.id,
      as_app_ref_compare_id_part_comm a.arch b.arch,
      as_app_ref_compare_id_part_comm a.branch b.branch]

/-- C18: on keys whose seven fields are all present and do not begin with `*`,
`as_app_ref_equal` is exact equality field for field.  (`same` is the outcome of
the pointer test, which can only hold when `a` and `b` are the same object.) -/
theorem as_app_ref_equal_concrete (same : Bool) (a b : AsAppRef)
    (hsame : same = true → a = b)
    (ha : ∀ f ∈ key_fields a, concrete_part f) (hb : ∀ f ∈ key_fields b, concrete_part f) :
    as_app_ref_equal same a b = true ↔
      (a.scope = b.scope ∧ a.system = b.system ∧ a.origin = b.origin ∧ a.kind = b.kind ∧
       a.id = b.id ∧ a.arch = b.arch ∧ a.branch = b.branch) := by
  cases same with
  | true =>
    obtain rfl := hsame rfl
    simp [as_app_ref_equal]
  | false =>
    simp only [key_fields, List.mem_cons, List.mem_singleton, List.not_mem_nil, or_false,
      forall_eq_or_imp, forall_eq] at ha hb
    obtain ⟨a1, a2, a3, a4, a5, a6, a7⟩ := ha
    obtain ⟨b1, b2, b3, b4, b5, b6, b7⟩ := hb
    rw [as_app_ref_equal_false_iff,
      as_app_ref_compare_id_part_concrete _ _ a1 b1, as_app_ref_compare_id_part_concrete _ _ a2 b2,
      as_app_ref_compare_id_part_concrete _ _ a3 b3, as_app_ref_compare_id_part_concrete _ _ a4 b4,
      as_app_ref_compare_id_part_concrete _ _ a5 b5, as_app_ref_compare_id_part_concrete _ _ a6 b6,
      as_app_ref_compare_id_part_concrete _ _ a7 b7]

/-- C18, at two concrete keys that differ in the branch only. -/
theorem as_app_ref_equal_concrete_witness :
    as_app_ref_equal false
        ⟨some "system", some "package", some "fedora", some "app", some "gimp.desktop",
          some "x86_64", some "3.20"⟩
        ⟨some "system", some "package", some "fedora", some "app", some "gimp.desktop",
          some "x86_64", some "master"⟩ ≠ true :=
  fun h => absurd
    ((as_app_ref_equal_concrete false
        ⟨some "system", some "package", some "fedora", some "app", some "gimp.desktop",
          some "x86_64", some "3.20"⟩
        ⟨some "system", some "package", some "fedora", some "app", some "gimp.desktop",
          some "x86_64", some "master"⟩
        (fun e => Bool.noConfusion e)
        (by
          intro f hf
          simp only [key_fields, List.mem_cons, List.mem_singleton, List.not_mem_nil,
            or_false] at hf
          rcases hf with rfl | rfl | rfl | rfl | rfl | rfl | rfl <;>
            exact ⟨_, rfl, by decide⟩)
        (by
          intro f hf
          simp only [key_fields, List.mem_cons, List.mem_singleton, List.not_mem_nil,
            or_false] at hf
          rcases hf with rfl | rfl | rfl | rfl | rfl | rfl | rfl <;>
            exact ⟨_, rfl, by decide⟩)).1 h).2.2.2.2.2.2
    (by decide)

/-- C19: for every string the reader accepts, the exporter succeeds on the key
read and returns the string with each empty segment replaced by `*` (the id
segment is never empty); it returns the string itself when no segment is
empty. -/
theorem as_app_ref_to_string_of_new_from_string (s : String) (k : AsAppRef)
    (h : as_app_ref_new_from_string (some s) = some k) :
    as_app_ref_to_string k
      = some (String.intercalate "/" ((g_strsplit s '/').map spec_star_if_empty)) ∧
    ((∀ seg ∈ g_strsplit s '/', seg ≠ "") → as_app_ref_to_string k = some s) := by
  obtain ⟨s0, s1, s2, s3, s4, s5, s6, hsplit, h4, rfl⟩ :=
    (as_app_ref_new_from_string_eq_some_iff s k).1 h
  have h4' : spec_star_if_empty s4 = s4 := by simp [spec_star_if_empty, h4]
  have hto : as_app_ref_to_string ⟨some s0, some s1, some s2, some s3, some s4, some s5, some s6⟩
      = some (String.intercalate "/" ((g_strsplit s '/').map spec_star_if_empty)) := by
    rw [hsplit]
    simp [as_app_ref_to_string, as_app_ref_fix_id_part_some, String.intercalate,
      String.intercalate.go, h4']
  refine ⟨hto, ?_⟩
  intro hne
  rw [hsplit] at hne
  simp only [List.mem_cons, List.mem_singleton, List.not_mem_nil, or_false, forall_eq_or_imp,
    forall_eq] at hne
  obtain ⟨n0, n1, n2, n3, -, n5, n6⟩ := hne
  rw [as_app_ref_to_string_concrete s0 s1 s2 s3 s4 s5 s6 n0 n1 n2 n3 n5 n6,
    ← g_strsplit_eq_seven s s0 s1 s2 s3 s4 s5 s6 hsplit]

/-- C19, at a string with an empty scope and an empty branch, and at the
specification's example string. -/
theorem as_app_ref_to_string_of_new_from_string_witness :
    as_app_ref_to_string ⟨some "", some "package", some "fedora", some "app",
        some "gimp.desktop", some "x86_64", some ""⟩
      = some "*/package/fedora/app/gimp.desktop/x86_64/*" ∧
    as_app_ref_to_string ⟨some "system", some "package", some "fedora", some "app",
        some "gimp.desktop", some "x86_64", some "3.20"⟩
      = some "system/package/fedora/app/gimp.desktop/x86_64/3.20" :=
  ⟨(as_app_ref_to_string_of_new_from_string "/package/fedora/app/gimp.desktop/x86_64/"
      ⟨some "", some "package", some "fedora", some "app", some "gimp.desktop", some "x86_64",
        some ""⟩ (by decide)).1,
   (as_app_ref_to_string_of_new_from_string "system/package/fedora/app/gimp.desktop/x86_64/3.20"
      ⟨some "system", some "package", some "fedora", some "app", some "gimp.desktop",
        some "x86_64", some "3.20"⟩ (by decide)).2 (by decide)⟩

/-- C15, on the code.  For a key `p` with an id, without `/` in a field and
without an empty field, reading back the exported string gives a key that
matches exactly the keys `p` matches.  For a key with an empty field it does
not: the key with the empty scope and the id `gimp.desktop` does not match the
specification's example key, whose scope is `system`, but it is exported with
the scope `*`, and the key read back matches the example key. -/
theorem as_app_ref_export_reparse_matching :
    (∀ p : AsAppRef, p.id ≠ none → (∀ f ∈ key_fields p, f ≠ some "") →
      (∀ f ∈ key_fields p, ∀ t, f = some t → '/' ∉ t.data) →
      ∃ p', as_app_ref_new_from_string (as_app_ref_to_string p) = some p' ∧
        ∀ k, as_app_ref_equal false p' k = as_app_ref_equal false p k) ∧
    (as_app_ref_new_from_string
        (as_app_ref_to_string ⟨some "", none, none, none, some "gimp.desktop", none, none⟩)
      = some ⟨some "*", some "*", some "*", some "*", some "gimp.desktop", some "*", some "*"⟩ ∧
     as_app_ref_equal false
        ⟨some "*", some "*", some "*", some "*", some "gimp.desktop", some "*", some "*"⟩
        ⟨some "system", some "package", some "fedora", some "app", some "gimp.desktop",
          some "x86_64", some "3.20"⟩ = true ∧
     as_app_ref_equal false
        ⟨some "", none, none, none, some "gimp.desktop", none, none⟩
        ⟨some "system", some "package", some "fedora", some "app", some "gimp.desktop",
          some "x86_64", some "3.20"⟩ = false) := by
  refine ⟨?_, by decide⟩
  intro p hid hempty hslash
  simp only [key_fields, List.mem_cons, List.mem_singleton, List.not_mem_nil, or_false,
    forall_eq_or_imp, forall_eq] at hempty hslash
  obtain ⟨e1, e2, e3, e4, e5, e6, e7⟩ := hempty
  obtain ⟨g1, g2, g3, g4, g5, g6, g7⟩ := hslash
  obtain ⟨i, hi⟩ : ∃ i, p.id = some i := by
    cases h : p.id with
    | none => exact absurd h hid
    | some i => exact ⟨i, rfl⟩
  have hine : i ≠ "" := fun e => e5 (by rw [hi, e])
  refine ⟨⟨some (as_app_ref_fix_id_part p.scope), some (as_app_ref_fix_id_part p.system),
    some (as_app_ref_fix_id_part p.origin), some (as_app_ref_fix_id_part p.kind), some i,
    some (as_app_ref_fix_id_part p.arch), some (as_app_ref_fix_id_part p.branch)⟩, ?_, ?_⟩
  · simp only [as_app_ref_to_string, hi]
    exact (as_app_ref_new_from_string_eq_some_iff _ _).2
      ⟨_, _, _, _, _, _, _,
        g_strsplit_join_seven _ _ _ _ _ _ _
          (as_app_ref_fix_id_part_no_slash _ g1) (as_app_ref_fix_id_part_no_slash _ g2)
          (as_app_ref_fix_id_part_no_slash _ g3) (as_app_ref_fix_id_part_no_slash _ g4)
          (g5 i hi)
          (as_app_ref_fix_id_part_no_slash _ g6) (as_app_ref_fix_id_part_no_slash _ g7),
        hine, rfl⟩
  · intro k
    apply as_app_ref_equal_false_congr
    · exact as_app_ref_compare_id_part_fix _ _ e1
    · exact as_app_ref_compare_id_part_fix _ _ e2
    · exact as_app_ref_compare_id_part_fix _ _ e3
    · exact as_app_ref_compare_id_part_fix _ _ e4
    · simp only [hi]
    · exact as_app_ref_compare_id_part_fix _ _ e6
    · exact as_app_ref_compare_id_part_fix _ _ e7

/-- C21: wildcarding is monotone.  When `as_app_ref_equal (a, b)` is true for
two keys (two distinct objects), setting any one field of `a` to an absent value
or to `*` with the setter of that field gives a key that `b` still matches.
When `a` and `b` are one and the same object the setter changes both, and the
comparison stays true by the pointer test. -/
theorem as_app_ref_equal_wildcard_monotone (a b : AsAppRef) (v : Option String)
    (hv : v = none ∨ v = some "*") (h : as_app_ref_equal false a b = true) :
    (as_app_ref_equal false (as_app_ref_set_scope a v) b = true ∧
     as_app_ref_equal false (as_app_ref_set_system a v) b = true ∧
     as_app_ref_equal false (as_app_ref_set_origin a v) b = true ∧
     as_app_ref_equal false (as_app_ref_set_kind a v) b = true ∧
     as_app_ref_equal false (as_app_ref_set_id a v) b = true ∧
     as_app_ref_equal false (as_app_ref_set_arch a v) b = true ∧
     as_app_ref_equal false (as_app_ref_set_branch a v) b = true) ∧
    (as_app_ref_equal true (as_app_ref_set_scope a v) (as_app_ref_set_scope a v) = true ∧
     as_app_ref_equal true (as_app_ref_set_system a v) (as_app_ref_set_system a v) = true ∧
     as_app_ref_equal true (as_app_ref_set_origin a v) (as_app_ref_set_origin a v) = true ∧
     as_app_ref_equal true (as_app_ref_set_kind a v) (as_app_ref_set_kind a v) = true ∧
     as_app_ref_equal true (as_app_ref_set_id a v) (as_app_ref_set_id a v) = true ∧
     as_app_ref_equal true (as_app_ref_set_arch a v) (as_app_ref_set_arch a v) = true ∧
     as_app_ref_equal true (as_app_ref_set_branch a v) (as_app_ref_set_branch a v) = true) := by
  obtain ⟨c1, c2, c3, c4, c5, c6, c7⟩ := (as_app_ref_equal_false_iff a b).1 h
  have w : ∀ y, as_app_ref_compare_id_part v y = true :=
    fun y => as_app_ref_compare_id_part_wildcard_left v y hv
  refine ⟨⟨?_, ?_, ?_, ?_, ?_, ?_, ?_⟩, rfl, rfl, rfl, rfl, rfl, rfl, rfl⟩
  · exact (as_app_ref_equal_false_iff _ b).2 ⟨w _, c2, c3, c4, c5, c6, c7⟩
  · exact (as_app_ref_equal_false_iff _ b).2 ⟨c1, w _, c3, c4, c5, c6, c7⟩
  · exact (as_app_ref_equal_false_iff _ b).2 ⟨c1, c2, w _, c4, c5, c6, c7⟩
  · exact (as_app_ref_equal_false_iff _ b).2 ⟨c1, c2, c3, w _, c5, c6, c7⟩
  · exact (as_app_ref_equal_false_iff _ b).2 ⟨c1, c2, c3, c4, w _, c6, c7⟩
  · exact (as_app_ref_equal_false_iff _ b).2 ⟨c1, c2, c3, c4, c5, w _, c7⟩
  · exact (as_app_ref_equal_false_iff _ b).2 ⟨c1, c2, c3, c4, c5, c6, w _⟩

/-- C21, at the specification's example key, matched by the pattern with the
scope `system` and the id `gimp.desktop`: the pattern still matches after its
scope is set to `*`. -/
theorem as_app_ref_equal_wildcard_monotone_witness :
    as_app_ref_equal false
        ⟨some "system", none, none, none, some "gimp.desktop", none, none⟩
        ⟨some "system", some "package", some "fedora", some "app", some "gimp.desktop",
          some "x86_64", some "3.20"⟩ = true ∧
    as_app_ref_equal false
        (as_app_ref_set_scope ⟨some "system", none, none, none, some "gimp.desktop", none, none⟩
          (some "*"))
        ⟨some "system", some "package", some "fedora", some "app", some "gimp.desktop",
          some "x86_64", some "3.20"⟩ = true :=
  ⟨by decide,
   (as_app_ref_equal_wildcard_monotone
      ⟨some "system", none, none, none, some "gimp.desktop", none, none⟩
      ⟨some "system", some "package", some "fedora", some "app", some "gimp.desktop",
        some "x86_64", some "3.20"⟩ (some "*") (Or.inr rfl) (by decide)).1.1⟩

end AppStream
